import Mathlib

/-!
Shallow embedding of the virtualized list-rendering engine in
`src/ListView/index.ts` (class `ListView<T>`), together with theorems
settling the stated properties of its windowing algorithm.

Modelling conventions:
* The render surface is abstracted: a DOM node used as a reusable render
  target is a `Slot` recording its vertical translation (`y`), its
  `dataset.index` tag (`tag`), and the last `renderHandler` invocation it
  received (`content`, the pair of data and of the `index` argument passed
  to the handler).  `createHandler()` produces a fresh unstyled node,
  modelled by `freshSlot`.
* `container.children` is the runway (sentinel) element followed by the
  slots; the model keeps the slots in `ListView.slots` (the runway is
  modelled by its layout size `runwayHeight`/`runwayWidth` and its current
  translation `runwayTransform`), so `children[k]` for `k ≥ RUNWAY_COUNT`
  is `slots[k - RUNWAY_COUNT]`.
* JS numbers that are integral throughout (scroll offsets, pixel sizes,
  indices) become `Int`/`Nat`.  `Math.floor(a / b)` for `b > 0` is
  `Int.fdiv`, the JS remainder `a % b` is `Int.tmod`, and `Math.ceil` of a
  quotient of naturals is `ceilDiv`.
* The truthiness test `!!data` is a parameter `truthy : T → Bool`; an
  out-of-range read (`undefined` in JS) is `Option.none`.
* `Array.prototype.slice` and `Array.prototype.splice` are modelled with
  the ECMAScript clamping rules (`jsSlice`, `jsSpliceStart`).
-/

namespace ListViewModel

/-- Constant `DSURPLUS_COUNT` from the source: overscan item count. -/
def DSURPLUS_COUNT : Nat := 0

/-- Constant `RUNWAY_COUNT` from the source: number of sentinel children
before the slots in the container. -/
def RUNWAY_COUNT : Nat := 1

/-- Ceiling division on naturals: `Math.ceil (a / b)` for `b > 0`. -/
def ceilDiv (a b : Nat) : Nat := (a + b - 1) / b

/-- A reusable render target (a DOM node of the slot pool): its vertical
translation, its `dataset.index` tag, and the last `renderHandler`
invocation (data and `index` argument) it received. -/
structure Slot (T : Type) where
  y : Int
  tag : Option Int
  content : Option (T × Int)
deriving Repr, DecidableEq

/-- The node produced by the default `createHandler`: no translation, no
tag, never rendered into. -/
def freshSlot {T : Type} : Slot T := ⟨0, none, none⟩

/-- The state of a `ListView<T>` instance: the data buffer `sourceList`,
the slot pool (children after the runway), the container scroll position
and client height, the cached sizes in `cachedValue`, the runway geometry,
and the relevant options. -/
structure ListView (T : Type) where
  sourceList : List T
  slots : List (Slot T)
  scrollTop : Int
  clientHeight : Nat
  cachedVCH : Nat
  runwayHeight : Nat
  runwayWidth : Nat
  cachedRunwayHeight : Nat
  cachedRunwayWidth : Nat
  runwayTransform : Int × Int
  itemHeight : Nat
  fixedSize : Bool
deriving Repr, DecidableEq

variable {T : Type}

/-- The getter `virtualItemCount`:
`Math.ceil(clientHeight / itemHeight) + DSURPLUS_COUNT`. -/
def virtualItemCount (s : ListView T) : Nat :=
  ceilDiv s.clientHeight s.itemHeight + DSURPLUS_COUNT

/-- Side effect of the `virtualItemCount` getter: it stores the measured
`clientHeight` into `cachedValue.virtualContainerHeight`. -/
def cacheVCH (s : ListView T) : ListView T :=
  { s with cachedVCH := s.clientHeight }

/-- The getter `actualContainerHeight`: `sourceList.length * itemHeight`. -/
def actualContainerHeight (s : ListView T) : Int :=
  (s.sourceList.length : Int) * (s.itemHeight : Int)

/-- `_measureSize`: caches the runway layout sizes. -/
def measureSize (s : ListView T) : ListView T :=
  { s with cachedRunwayHeight := s.runwayHeight, cachedRunwayWidth := s.runwayWidth }

/-- `_stretchList`: translates the runway to
`(0, actualContainerHeight - runway.clientHeight)`. -/
def stretchList (s : ListView T) : ListView T :=
  { s with runwayTransform := (0, actualContainerHeight s - (s.runwayHeight : Int)) }

/-- `_recycleList`: a no-op in the source. -/
def recycleList (s : ListView T) : ListView T := s

/-- ECMAScript index clamping used by `Array.prototype.slice` and
`Array.prototype.splice`: a negative index counts from the end (clamped to
0), a nonnegative one is clamped to the length. -/
def jsSpliceStart (len : Nat) (i : Int) : Nat :=
  (if i < 0 then max ((len : Int) + i) 0 else min i (len : Int)).toNat

/-- `Array.prototype.slice(start, stop)`: the elements between the two
clamped indices. -/
def jsSlice (l : List T) (start stop : Int) : List T :=
  (l.take (jsSpliceStart l.length stop)).drop (jsSpliceStart l.length start)

/-- Applies `f i a` to each element, with `i` the position counted from
`n`: the effect of an indexed `for` loop over the slot list. -/
def mapIdxFrom (f : Nat → Slot T → Slot T) : Nat → List (Slot T) → List (Slot T)
  | _, [] => []
  | n, a :: as => f n a :: mapIdxFrom f (n + 1) as

/-- One iteration of the `_renderList` loop on the slot at position `i`:
translate the node to `(0, scrolledTop + i*itemHeight - offset)`, then, if
`virtualList[i]` is truthy, tag it with `startIndex + i` and invoke
`renderHandler(node, data, startIndex + i)`. -/
def renderSlotStep (truthy : T → Bool) (itemHeight : Nat)
    (scrolledTop offset startIndex : Int) (vic : Nat) (virtualList : List T)
    (i : Nat) (slot : Slot T) : Slot T :=
  if i < vic then
    let positioned : Slot T :=
      { slot with y := scrolledTop + (i : Int) * (itemHeight : Int) - offset }
    match virtualList[i]? with
    | some d =>
        if truthy d then
          { positioned with
              tag := some (startIndex + (i : Int)),
              content := some (d, startIndex + (i : Int)) }
        else positioned
    | none => positioned
  else slot

/-- `_renderList`: reads `virtualItemCount` (caching the client height),
computes `offset`, `startIndex` and `endIndex`, slices the window
`virtualList` out of `sourceList`, and runs the render loop over the slot
pool. -/
def renderList (truthy : T → Bool) (s : ListView T) : ListView T :=
  let vic := virtualItemCount s
  let s1 := cacheVCH s
  let scrolledTop := s1.scrollTop
  let offset := Int.tmod scrolledTop (s1.itemHeight : Int)
  let startIndex := Int.fdiv scrolledTop (s1.itemHeight : Int)
  let virtualList := jsSlice s1.sourceList startIndex (startIndex + (vic : Int))
  { s1 with
      slots := mapIdxFrom
        (renderSlotStep truthy s1.itemHeight scrolledTop offset startIndex vic virtualList)
        0 s1.slots }

/-- The buffer mutation of `insertData(dataList, index)`: clamp an
omitted, negative or too-large index to `maxIndex` (append), then
`sourceList.splice(position, 0, ...dataList)`. -/
def insertBufferStep (s : ListView T) (dataList : List T) (index : Option Int) :
    ListView T :=
  let maxIndex : Int := (s.sourceList.length : Int)
  let position : Int :=
    match index with
    | none => maxIndex
    | some i => if i < 0 ∨ maxIndex < i then maxIndex else i
  { s with sourceList :=
      s.sourceList.take position.toNat ++ dataList ++ s.sourceList.drop position.toNat }

/-- `insertData(dataList, index?)`: splice the data in (with out-of-range
clamping to append), then `_stretchList` and `_renderList`.  The
`if (position) {}` block in the source is empty and has no effect. -/
def insertData (truthy : T → Bool) (s : ListView T) (dataList : List T)
    (index : Option Int) : ListView T :=
  renderList truthy (stretchList (insertBufferStep s dataList index))

/-- `sourceList.splice(index, count)` used by `deleteData`: remaining list
and removed slice, with the ECMAScript clamping of `index`. -/
def jsSpliceDelete (l : List T) (index : Int) (count : Nat) : List T × List T :=
  let start := jsSpliceStart l.length index
  (l.take start ++ l.drop (start + count), (l.drop start).take count)

/-- `deleteData(index, count = 1)`: splice the items out, then
`_stretchList`, `_recycleList` (a no-op) and `_renderList`; returns the
new state together with the removed slice. -/
def deleteData (truthy : T → Bool) (s : ListView T) (index : Int) (count : Nat) :
    ListView T × List T :=
  let spliced := jsSpliceDelete s.sourceList index count
  (renderList truthy (stretchList (recycleList { s with sourceList := spliced.1 })),
   spliced.2)

/-- The part of `updateData(dataList)` before the final `_stretchList` and
`_renderList`: replace `sourceList`, remeasure unless `fixedSize`, remove
the container children above position `RUNWAY_COUNT` (keeping the runway
and the first `RUNWAY_COUNT` slots), create `virtualItemCount` fresh nodes
via `createHandler` (the getter caches the client height), and scroll to
the top when the new data fits in the window. -/
def updateDataPreRender (s : ListView T) (dataList : List T) : ListView T :=
  let s1 := { s with sourceList := dataList }
  let s2 := if s1.fixedSize then s1 else measureSize s1
  let s3 := { s2 with slots := s2.slots.take RUNWAY_COUNT }
  let vic := virtualItemCount s3
  let s4 := cacheVCH s3
  let s5 := { s4 with slots := s4.slots ++ List.replicate vic freshSlot }
  if s5.sourceList.length ≤ vic then { s5 with scrollTop := 0 } else s5

/-- `updateData(dataList)`: wholesale replacement of the data buffer
followed by `_stretchList` and `_renderList`. -/
def updateData (truthy : T → Bool) (s : ListView T) (dataList : List T) :
    ListView T :=
  renderList truthy (stretchList (updateDataPreRender s dataList))

/-- `renderItem(data, index)`: recompute `startIndex` from the current
scroll position, take the node `children[nodeIndex + RUNWAY_COUNT]`
(slot `nodeIndex` of the pool) and invoke
`renderHandler(node, data, nodeIndex + RUNWAY_COUNT)` on it.  A
`nodeIndex` of `-RUNWAY_COUNT` would hand the runway element to the
handler and indices outside the children are `undefined`; the model only
records the effect on an existing slot and leaves the state unchanged
otherwise. -/
def renderItem (s : ListView T) (data : T) (index : Int) : ListView T :=
  let startIndex := Int.fdiv s.scrollTop (s.itemHeight : Int)
  let nodeIndex := index - startIndex
  if nodeIndex < 0 then s
  else
    match s.slots[nodeIndex.toNat]? with
    | some slot =>
        let rendered : Slot T :=
          { slot with content := some (data, nodeIndex + (RUNWAY_COUNT : Int)) }
        { s with slots := s.slots.set nodeIndex.toNat rendered }
    | none => s

/-- `onScroll(event)`: the browser has already moved `container.scrollTop`
to the new value when the handler runs; the handler ignores the event when
the offset is negative or overshoots
`actualContainerHeight - virtualContainerHeight` (the cached client
height), and otherwise runs a single `_renderList` pass. -/
def onScroll (truthy : T → Bool) (s : ListView T) (newScrollTop : Int) :
    ListView T :=
  let s1 := { s with scrollTop := newScrollTop }
  if newScrollTop < 0 ∨ actualContainerHeight s1 < newScrollTop + (s1.cachedVCH : Int)
  then s1
  else renderList truthy s1

/-- `onResize()`: compare the cached client height with the live one; on
growth, append exactly the slot deficit
`ceil(actualHeight/itemHeight) + DSURPLUS_COUNT - (children.length - RUNWAY_COUNT)`
as fresh nodes (a nonpositive deficit appends nothing); on shrinkage, only
the no-op `_recycleList` runs; both cases end with `_renderList`. -/
def onResize (truthy : T → Bool) (s : ListView T) : ListView T :=
  let cachedHeight := s.cachedVCH
  let actualHeight := s.clientHeight
  let s1 :=
    if cachedHeight < actualHeight then
      let count : Int :=
        ((ceilDiv actualHeight s.itemHeight + DSURPLUS_COUNT : Nat) : Int) -
          ((s.slots.length : Int))
      { s with slots := s.slots ++ List.replicate count.toNat freshSlot }
    else if actualHeight < cachedHeight then recycleList s else s
  renderList truthy s1

/-- JS truthiness on (integral) numbers: `0` is falsy, everything else
truthy.  Used to instantiate the generic theorems at `T := Int`. -/
def intTruthy : Int → Bool := fun n => decide (n ≠ 0)

/-! ### Helper lemmas -/

theorem mapIdxFrom_length (f : Nat → Slot T → Slot T) (n : Nat) (l : List (Slot T)) :
    (mapIdxFrom f n l).length = l.length := by
  induction l generalizing n with
  | nil => rfl
  | cons a as ih => simp [mapIdxFrom, ih]

theorem mapIdxFrom_getElem? (f : Nat → Slot T → Slot T) (n i : Nat) (l : List (Slot T)) :
    (mapIdxFrom f n l)[i]? = (l[i]?).map (f (n + i)) := by
  induction l generalizing n i with
  | nil => simp [mapIdxFrom]
  | cons a as ih =>
      cases i with
      | zero => simp [mapIdxFrom]
      | succ j =>
          have h2 : n + (j + 1) = (n + 1) + j := by omega
          simp only [mapIdxFrom, List.getElem?_cons_succ, h2, ih]

theorem jsSlice_getElem? (l : List T) (start : Int) (vic i : Nat)
    (hstart : 0 ≤ start) (hi : i < vic) :
    (jsSlice l start (start + (vic : Int)))[i]? = l[start.toNat + i]? := by
  lift start to Nat using hstart with n
  have hs : jsSpliceStart l.length (n : Int) = min n l.length := by
    simp only [jsSpliceStart]
    omega
  have ht : jsSpliceStart l.length ((n : Int) + (vic : Int)) = min (n + vic) l.length := by
    simp only [jsSpliceStart]
    omega
  simp only [jsSlice, hs, ht, Int.toNat_natCast]
  rw [List.getElem?_drop]
  by_cases h1 : min n l.length + i < min (n + vic) l.length
  · rw [List.getElem?_take_of_lt h1]
    congr 1
    omega
  · have hL : (l.take (min (n + vic) l.length)).length ≤ min n l.length + i := by
      simp only [List.length_take]
      omega
    rw [List.getElem?_eq_none_iff.mpr hL, eq_comm]
    rw [List.getElem?_eq_none_iff]
    omega

theorem renderList_sourceList (truthy : T → Bool) (s : ListView T) :
    (renderList truthy s).sourceList = s.sourceList := rfl

theorem renderList_scrollTop (truthy : T → Bool) (s : ListView T) :
    (renderList truthy s).scrollTop = s.scrollTop := rfl

theorem renderList_runwayTransform (truthy : T → Bool) (s : ListView T) :
    (renderList truthy s).runwayTransform = s.runwayTransform := rfl

theorem renderList_slots_length (truthy : T → Bool) (s : ListView T) :
    (renderList truthy s).slots.length = s.slots.length :=
  mapIdxFrom_length _ 0 s.slots

/-- Per-slot effect of a Window Renderer pass as the specification's
amended window property states it: the slot is translated to
`scrollOffset + i*itemHeight - (scrollOffset mod itemHeight)`; when its
data index `startIndex + i` falls inside the data buffer and the item
there is truthy, the slot is tagged with that index and bound to that
item; otherwise its tag and binding are left unchanged. -/
def claimedSlotUpdate (truthy : T → Bool) (s : ListView T) (i : Nat) (slot : Slot T) :
    Slot T :=
  let startIndex := Int.fdiv s.scrollTop (s.itemHeight : Int)
  let positioned : Slot T :=
    { slot with
        y := s.scrollTop + (i : Int) * (s.itemHeight : Int) -
          Int.tmod s.scrollTop (s.itemHeight : Int) }
  match s.sourceList[startIndex.toNat + i]? with
  | some d =>
      if truthy d then
        { positioned with
            tag := some (startIndex + (i : Int)),
            content := some (d, startIndex + (i : Int)) }
      else positioned
  | none => positioned

theorem renderList_slots_getElem? (truthy : T → Bool) (s : ListView T) (i : Nat)
    (hlo : 0 ≤ s.scrollTop) (hi : i < virtualItemCount s) :
    (renderList truthy s).slots[i]? = (s.slots[i]?).map (claimedSlotUpdate truthy s i) := by
  have hstart : 0 ≤ Int.fdiv s.scrollTop (s.itemHeight : Int) :=
    Int.fdiv_nonneg hlo (Int.natCast_nonneg _)
  unfold renderList
  simp only [cacheVCH]
  rw [mapIdxFrom_getElem?]
  cases hsl : s.slots[i]? with
  | none => simp
  | some slot =>
      simp only [Option.map_some']
      simp only [renderSlotStep, claimedSlotUpdate, Nat.zero_add, if_pos hi]
      rw [jsSlice_getElem? s.sourceList _ (virtualItemCount s) i hstart hi]

/-! ### Concrete states used by counterexamples and witnesses -/

/-- A one-item viewport: item height 24, client height 24, one pooled
slot, dataset holding only the falsy number `0`, scrolled to the top. -/
def falsyOneItem : ListView Int :=
  { sourceList := [0], slots := [freshSlot], scrollTop := 0, clientHeight := 24,
    cachedVCH := 24, runwayHeight := 0, runwayWidth := 0, cachedRunwayHeight := 0,
    cachedRunwayWidth := 0, runwayTransform := (0, 0), itemHeight := 24,
    fixedSize := true }

/-- Like `falsyOneItem` but the single item is the truthy number `5`. -/
def boundOneItem : ListView Int :=
  { falsyOneItem with sourceList := [5] }

/-- A five-slot pool over the dataset `[10, 11, 12, 13, 14]`, client
height 120, scrolled to the top. -/
def fivePool : ListView Int :=
  { sourceList := [10, 11, 12, 13, 14], slots := List.replicate 5 freshSlot,
    scrollTop := 0, clientHeight := 120, cachedVCH := 120, runwayHeight := 0,
    runwayWidth := 0, cachedRunwayHeight := 0, cachedRunwayWidth := 0,
    runwayTransform := (0, 0), itemHeight := 24, fixedSize := true }

/-- Like `falsyOneItem` but the pooled slot carries a stale tag and
binding from an earlier pass. -/
def staleOneItem : ListView Int :=
  { falsyOneItem with slots := [{ y := 7, tag := some 99, content := some (42, 99) }] }

/-- A five-slot pool over a 100-item dataset (the truthy numbers 1..100),
viewport height 100, item height 24. -/
def hundredList : ListView Int :=
  { sourceList := (List.range 100).map (fun n => (n : Int) + 1),
    slots := List.replicate 5 freshSlot, scrollTop := 0, clientHeight := 100,
    cachedVCH := 100, runwayHeight := 0, runwayWidth := 0, cachedRunwayHeight := 0,
    cachedRunwayWidth := 0, runwayTransform := (0, 0), itemHeight := 24,
    fixedSize := true }

/-! ### C1 -/

/-- C1 fails on the code as stated: on the dataset `[0]` with item height
24, viewport height 24 and the valid scroll offset 0, the window is
`[0, 1) ∩ [0, 1) = {0}`, so the claim requires the single slot to be
tagged with data index 0 and bound; the render pass leaves it untagged and
unbound because the item `0` is falsy (`!!data` fails). -/
theorem C1_counterexample :
    (0 ≤ falsyOneItem.scrollTop ∧
      falsyOneItem.scrollTop + (falsyOneItem.clientHeight : Int) ≤
        actualContainerHeight falsyOneItem ∧
      falsyOneItem.slots.length = virtualItemCount falsyOneItem) ∧
    (renderList intTruthy falsyOneItem).slots.map Slot.tag = [none] ∧
    (none : Option Int) ≠ some 0 := by
  decide

/-- C1 (amended): for a valid scroll offset and a pool of
`virtualItemCount` slots, a render pass positions slot `i` at
`scrollOffset + i*itemHeight - (scrollOffset mod itemHeight)` and binds it
to data index `startIndex + i` (tagging it and invoking the render handler
with the data and that index) exactly when that index lies in
`[0, N)` and the item there is truthy; otherwise the slot keeps its
previous tag and binding. -/
theorem C1_window_binding (truthy : T → Bool) (s : ListView T) (i : Nat)
    (_hItem : 0 < s.itemHeight)
    (_hPool : s.slots.length = virtualItemCount s)
    (hlo : 0 ≤ s.scrollTop)
    (_hhi : s.scrollTop + (s.clientHeight : Int) ≤ actualContainerHeight s)
    (hi : i < virtualItemCount s) :
    (renderList truthy s).slots.length = s.slots.length ∧
    (renderList truthy s).slots[i]? = (s.slots[i]?).map (claimedSlotUpdate truthy s i) :=
  ⟨renderList_slots_length truthy s, renderList_slots_getElem? truthy s i hlo hi⟩

/-- Witness for `C1_window_binding` at the concrete state `boundOneItem`
and slot 0. -/
theorem C1_window_binding_witness :
    (0 < boundOneItem.itemHeight ∧
      boundOneItem.slots.length = virtualItemCount boundOneItem ∧
      0 ≤ boundOneItem.scrollTop ∧
      boundOneItem.scrollTop + (boundOneItem.clientHeight : Int) ≤
        actualContainerHeight boundOneItem ∧
      0 < virtualItemCount boundOneItem) ∧
    (renderList intTruthy boundOneItem).slots.length = boundOneItem.slots.length ∧
    (renderList intTruthy boundOneItem).slots[0]? =
      (boundOneItem.slots[0]?).map (claimedSlotUpdate intTruthy boundOneItem 0) :=
  ⟨⟨by decide, by decide, by decide, by decide, by decide⟩,
    C1_window_binding intTruthy boundOneItem 0 (by decide) (by decide) (by decide)
      (by decide) (by decide)⟩

/-! ### C2 -/

/-- C2 is right and the code is wrong: with scroll offset 0 and item
height 24, `renderItem(data, 3)` rebinds exactly the slot at pool position
3 (as the claim states), but invokes the render handler with index
argument `nodeIndex + RUNWAY_COUNT = 4` instead of the logical index 3,
contradicting the documented `renderHandler` contract (the data's logical
index, which `_renderList` passes as `actualIndex`). -/
theorem C2_renderItem_index_argument :
    (renderItem fivePool 99 3).slots =
      [freshSlot, freshSlot, freshSlot,
        { y := 0, tag := none, content := some ((99 : Int), (4 : Int)) }, freshSlot] ∧
    (4 : Int) ≠ 3 := by
  decide

/-! ### C10 -/

/-- C10: in a render pass, a slot whose in-range data item is falsy is
positioned but not rebound: the handler is not invoked for it and its
previous tag and binding are left unchanged. -/
theorem C10_falsy_item_skipped (truthy : T → Bool) (s : ListView T) (i : Nat) (d : T)
    (hlo : 0 ≤ s.scrollTop)
    (hi : i < virtualItemCount s)
    (hd : s.sourceList[(Int.fdiv s.scrollTop (s.itemHeight : Int)).toNat + i]? = some d)
    (hfalsy : truthy d = false) :
    (renderList truthy s).slots[i]? = (s.slots[i]?).map (fun slot =>
      { slot with
          y := s.scrollTop + (i : Int) * (s.itemHeight : Int) -
            Int.tmod s.scrollTop (s.itemHeight : Int) }) := by
  rw [renderList_slots_getElem? truthy s i hlo hi]
  cases hsl : s.slots[i]? with
  | none => rfl
  | some slot => simp [claimedSlotUpdate, hd, hfalsy]

/-- Witness for `C10_falsy_item_skipped` at the concrete state
`staleOneItem` (stale tag 99 and stale binding survive the pass over the
falsy item `0`). -/
theorem C10_falsy_item_skipped_witness :
    (0 ≤ staleOneItem.scrollTop ∧
      0 < virtualItemCount staleOneItem ∧
      staleOneItem.sourceList[(Int.fdiv staleOneItem.scrollTop
        (staleOneItem.itemHeight : Int)).toNat + 0]? = some 0 ∧
      intTruthy 0 = false) ∧
    (renderList intTruthy staleOneItem).slots[0]? =
      (staleOneItem.slots[0]?).map (fun slot =>
        { slot with
            y := staleOneItem.scrollTop + (0 : Int) * (staleOneItem.itemHeight : Int) -
              Int.tmod staleOneItem.scrollTop (staleOneItem.itemHeight : Int) }) :=
  ⟨⟨by decide, by decide, by decide, by decide⟩,
    C10_falsy_item_skipped intTruthy staleOneItem 0 0 (by decide) (by decide)
      (by decide) (by decide)⟩

/-! ### C3 -/

/-- C3: a scroll event whose offset is negative or overshoots
`datasetLength*itemHeight - viewportHeight` is ignored — no render pass
runs, and every prior slot binding, tag, position and the runway stretch
are unchanged; an offset inside the valid range triggers exactly one
render pass and leaves the stretch extent untouched. -/
theorem C3_onScroll_guard (truthy : T → Bool) (s : ListView T) (v : Int) :
    ((v < 0 ∨ actualContainerHeight s < v + (s.cachedVCH : Int)) →
      onScroll truthy s v = { s with scrollTop := v } ∧
      (onScroll truthy s v).slots = s.slots ∧
      (onScroll truthy s v).runwayTransform = s.runwayTransform) ∧
    ((0 ≤ v ∧ v + (s.cachedVCH : Int) ≤ actualContainerHeight s) →
      onScroll truthy s v = renderList truthy { s with scrollTop := v } ∧
      (onScroll truthy s v).runwayTransform = s.runwayTransform) := by
  have hact : actualContainerHeight { s with scrollTop := v } = actualContainerHeight s := rfl
  constructor
  · intro h
    have hg : onScroll truthy s v = { s with scrollTop := v } := by
      simp only [onScroll]
      rw [if_pos]
      simpa [hact] using h
    exact ⟨hg, by rw [hg], by rw [hg]⟩
  · intro h
    have hg : onScroll truthy s v = renderList truthy { s with scrollTop := v } := by
      simp only [onScroll]
      rw [if_neg]
      simp only [hact]
      omega
    refine ⟨hg, ?_⟩
    rw [hg, renderList_runwayTransform]

/-- Witness for `C3_onScroll_guard` on `hundredList`: the out-of-range
event `onScroll(-5)` is a no-op, and the in-range event `onScroll(240)` is
a single render pass. -/
theorem C3_onScroll_guard_witness :
    (((-5 : Int) < 0) ∧
      onScroll intTruthy hundredList (-5) = { hundredList with scrollTop := -5 }) ∧
    ((0 : Int) ≤ 240 ∧
      (240 : Int) + (hundredList.cachedVCH : Int) ≤ actualContainerHeight hundredList ∧
      onScroll intTruthy hundredList 240 =
        renderList intTruthy { hundredList with scrollTop := 240 }) :=
  ⟨⟨by decide, ((C3_onScroll_guard intTruthy hundredList (-5)).1 (Or.inl (by decide))).1⟩,
    ⟨by decide, by decide,
      ((C3_onScroll_guard intTruthy hundredList 240).2 ⟨by decide, by decide⟩).1⟩⟩

/-! ### C4 -/

theorem stretchList_runwayTransform (s : ListView T) :
    (stretchList s).runwayTransform =
      (0, actualContainerHeight s - (s.runwayHeight : Int)) := rfl

theorem renderList_cachedRunwayHeight (truthy : T → Bool) (s : ListView T) :
    (renderList truthy s).cachedRunwayHeight = s.cachedRunwayHeight := rfl

theorem renderList_cachedRunwayWidth (truthy : T → Bool) (s : ListView T) :
    (renderList truthy s).cachedRunwayWidth = s.cachedRunwayWidth := rfl

/-- Field-level description of the pre-render part of `updateData`: the
buffer is replaced, the runway is remeasured exactly when `fixedSize` is
off, the scroll offset is reset to the top exactly when the new data fits
into the window, and the slot pool becomes the retained baseline
(`RUNWAY_COUNT` slots at most) plus `virtualItemCount` fresh nodes. -/
theorem updateDataPreRender_fields (s : ListView T) (l : List T) :
    (updateDataPreRender s l).sourceList = l ∧
    (updateDataPreRender s l).itemHeight = s.itemHeight ∧
    (updateDataPreRender s l).runwayHeight = s.runwayHeight ∧
    (updateDataPreRender s l).clientHeight = s.clientHeight ∧
    (updateDataPreRender s l).cachedRunwayHeight =
      (if s.fixedSize then s.cachedRunwayHeight else s.runwayHeight) ∧
    (updateDataPreRender s l).cachedRunwayWidth =
      (if s.fixedSize then s.cachedRunwayWidth else s.runwayWidth) ∧
    (updateDataPreRender s l).scrollTop =
      (if l.length ≤ virtualItemCount s then 0 else s.scrollTop) ∧
    (updateDataPreRender s l).slots.length =
      min RUNWAY_COUNT s.slots.length + virtualItemCount s := by
  simp only [updateDataPreRender, measureSize, cacheVCH, virtualItemCount]
  split_ifs <;>
    simp_all [List.length_take, List.length_append, Nat.min_comm]

/-- C4: after each of `insertData`, `deleteData` and `updateData`, the
runway translation is `(0, DataBuffer.length * itemHeight - sentinelSize)`
— so the scrollable extent (translation plus the sentinel's own height) is
exactly `DataBuffer.length * itemHeight` — and each mutation is the buffer
update followed by `_stretchList` and then its render pass. -/
theorem C4_stretch_invariant (truthy : T → Bool) (s : ListView T) (l : List T)
    (oi : Option Int) (i : Int) (c : Nat) :
    (insertData truthy s l oi).runwayTransform =
      (0, ((insertData truthy s l oi).sourceList.length : Int) * (s.itemHeight : Int)
        - (s.runwayHeight : Int)) ∧
    ((deleteData truthy s i c).1).runwayTransform =
      (0, (((deleteData truthy s i c).1).sourceList.length : Int) * (s.itemHeight : Int)
        - (s.runwayHeight : Int)) ∧
    (updateData truthy s l).runwayTransform =
      (0, (l.length : Int) * (s.itemHeight : Int) - (s.runwayHeight : Int)) ∧
    (updateData truthy s l).runwayTransform.2 + (s.runwayHeight : Int) =
      (l.length : Int) * (s.itemHeight : Int) ∧
    insertData truthy s l oi = renderList truthy (stretchList (insertBufferStep s l oi)) ∧
    (deleteData truthy s i c).1 =
      renderList truthy (stretchList (recycleList
        { s with sourceList := (jsSpliceDelete s.sourceList i c).1 })) ∧
    updateData truthy s l = renderList truthy (stretchList (updateDataPreRender s l)) := by
  obtain ⟨hsrc, hih, hrh, -, -, -, -, -⟩ := updateDataPreRender_fields s l
  have hupd : (updateData truthy s l).runwayTransform =
      (0, (l.length : Int) * (s.itemHeight : Int) - (s.runwayHeight : Int)) := by
    show (renderList truthy (stretchList (updateDataPreRender s l))).runwayTransform = _
    rw [renderList_runwayTransform, stretchList_runwayTransform, actualContainerHeight,
      hsrc, hih, hrh]
  refine ⟨rfl, rfl, hupd, ?_, rfl, rfl, rfl⟩
  rw [hupd]
  ring

/-! ### C5 -/

/-- The grow branch of `onResize`: when the cached height is below the
live one and the pool does not already exceed the required count, the pool
is topped up to exactly `ceil(clientHeight/itemHeight) + DSURPLUS_COUNT`
slots. -/
theorem onResize_slots_length_grow (truthy : T → Bool) (s : ListView T)
    (hGrow : s.cachedVCH < s.clientHeight)
    (hPool : s.slots.length ≤ virtualItemCount s) :
    (onResize truthy s).slots.length =
      ceilDiv s.clientHeight s.itemHeight + DSURPLUS_COUNT := by
  simp only [onResize]
  rw [renderList_slots_length, if_pos hGrow]
  simp only [List.length_append, List.length_replicate, virtualItemCount] at hPool ⊢
  omega

/-- C5 fails on the code as stated: shrinking the viewport from a cached
height of 100 to a live height of 50 (item height 24, five pooled slots)
leaves the pool at 5 slots after `onResize` settles, while
`ceil(50/24) + overscan = 3`; slot reclamation on shrink is a deferred
no-op. -/
theorem C5_counterexample :
    { hundredList with clientHeight := 50 }.cachedVCH = 100 ∧
    (onResize intTruthy { hundredList with clientHeight := 50 }).slots.length = 5 ∧
    ceilDiv 50 24 + DSURPLUS_COUNT = 3 ∧
    (5 : Nat) ≠ 3 := by
  decide

/-- The shrink branch of `onResize`: when the live height is below the
cached one, only the no-op `_recycleList` runs before the render pass, so
no slot is created or destroyed. -/
theorem onResize_slots_length_shrink (truthy : T → Bool) (s : ListView T)
    (hShrink : s.clientHeight < s.cachedVCH) :
    (onResize truthy s).slots.length = s.slots.length := by
  simp only [onResize]
  rw [renderList_slots_length, if_neg (by omega), if_pos hShrink]
  rfl

/-- C5 (amended): after a resize that grows the viewport, provided the
pool does not already exceed the new requirement, the pool holds exactly
`ceil(viewportHeight/itemHeight) + overscanCount` slots, independently of
the dataset length; a shrinking resize leaves the pool unchanged (slot
reclamation on shrink is a deferred no-op); and `updateData` leaves the
pool at its retained baseline (at most `RUNWAY_COUNT` old slots) plus
exactly `ceil(viewportHeight/itemHeight) + overscanCount` fresh slots. -/
theorem C5_pool_cardinality (truthy : T → Bool) (s : ListView T) (l : List T) :
    ((s.cachedVCH < s.clientHeight ∧ s.slots.length ≤ virtualItemCount s) →
      (onResize truthy s).slots.length =
        ceilDiv s.clientHeight s.itemHeight + DSURPLUS_COUNT ∧
      (onResize truthy { s with sourceList := l }).slots.length =
        (onResize truthy s).slots.length) ∧
    (s.clientHeight < s.cachedVCH →
      (onResize truthy s).slots.length = s.slots.length) ∧
    (updateData truthy s l).slots.length =
      min RUNWAY_COUNT s.slots.length +
        (ceilDiv s.clientHeight s.itemHeight + DSURPLUS_COUNT) := by
  obtain ⟨-, -, -, -, -, -, -, hslots⟩ := updateDataPreRender_fields s l
  refine ⟨fun h => ?_, onResize_slots_length_shrink truthy s, ?_⟩
  · have h1 := onResize_slots_length_grow truthy s h.1 h.2
    have h2 := onResize_slots_length_grow truthy { s with sourceList := l } h.1 h.2
    exact ⟨h1, by rw [h1, h2]⟩
  · calc (updateData truthy s l).slots.length
        = (updateDataPreRender s l).slots.length := renderList_slots_length _ _
      _ = min RUNWAY_COUNT s.slots.length + virtualItemCount s := hslots
      _ = _ := rfl

/-- Like `hundredList` but with a stale cached height of 50 and only
three pooled slots: a viewport that has just grown. -/
def grownPool : ListView Int :=
  { hundredList with cachedVCH := 50, slots := List.replicate 3 freshSlot }

/-- Witness for `C5_pool_cardinality`: growing the viewport from a cached
height of 50 to a live height of 100 over a three-slot pool yields
`ceil(100/24) = 5` slots, and shrinking the viewport from a cached height
of 100 to a live height of 50 leaves the five-slot pool untouched. -/
theorem C5_pool_cardinality_witness :
    ((grownPool.cachedVCH < grownPool.clientHeight ∧
        grownPool.slots.length ≤ virtualItemCount grownPool) ∧
      (onResize intTruthy grownPool).slots.length =
        ceilDiv grownPool.clientHeight grownPool.itemHeight + DSURPLUS_COUNT) ∧
    ({ hundredList with clientHeight := 50 }.clientHeight <
        { hundredList with clientHeight := 50 }.cachedVCH ∧
      (onResize intTruthy { hundredList with clientHeight := 50 }).slots.length =
        { hundredList with clientHeight := 50 }.slots.length) :=
  ⟨⟨⟨by decide, by decide⟩,
      ((C5_pool_cardinality intTruthy grownPool []).1 ⟨by decide, by decide⟩).1⟩,
    ⟨by decide,
      (C5_pool_cardinality intTruthy { hundredList with clientHeight := 50 } []).2.1
        (by decide)⟩⟩

/-! ### C6 -/

/-- A one-slot viewport over the single truthy item `7`. -/
def singleSeven : ListView Int :=
  { falsyOneItem with sourceList := [7] }

/-- A five-slot pool over the ten truthy items `10..19`. -/
def tenItems : ListView Int :=
  { hundredList with sourceList := [10, 11, 12, 13, 14, 15, 16, 17, 18, 19] }

/-- C6 fails on the code as stated: the index `-1` is outside the
buffer's range `[0, length)`, yet `deleteData(-1, 1)` on the one-item
buffer `[7]` returns `[7]`, not the empty array — `splice` counts a
negative index from the end of the buffer. -/
theorem C6_counterexample :
    ((-1 : Int) < 0) ∧
    (deleteData intTruthy singleSeven (-1) 1).2 = [7] ∧
    ([7] : List Int) ≠ [] := by
  decide

/-- C6 (amended): `deleteData(index, count)` removes at most `count`
items, starting at the clamped index (a nonnegative index is clamped to
the length, a negative one counts from the end of the buffer, clamped to
0); it returns exactly the removed slice, returns the empty array whenever
`index ≥ length`, and never fails; `deleteData(3, 100)` on a 10-item
buffer removes items `[3..9]`, returns those 7 items, and leaves length 3
(see the witness). -/
theorem C6_deleteData (truthy : T → Bool) (s : ListView T) (index : Int) (count : Nat) :
    (deleteData truthy s index count).2.length ≤ count ∧
    (deleteData truthy s index count).2 =
      (s.sourceList.drop (jsSpliceStart s.sourceList.length index)).take count ∧
    ((deleteData truthy s index count).1).sourceList =
      s.sourceList.take (jsSpliceStart s.sourceList.length index) ++
        s.sourceList.drop (jsSpliceStart s.sourceList.length index + count) ∧
    ((s.sourceList.length : Int) ≤ index → (deleteData truthy s index count).2 = []) := by
  refine ⟨?_, rfl, rfl, ?_⟩
  · show ((s.sourceList.drop (jsSpliceStart s.sourceList.length index)).take count).length
        ≤ count
    simp [List.length_take]
  · intro h
    have hstart : jsSpliceStart s.sourceList.length index = s.sourceList.length := by
      simp only [jsSpliceStart]
      omega
    show (s.sourceList.drop (jsSpliceStart s.sourceList.length index)).take count = []
    rw [hstart, List.drop_length, List.take_nil]

/-- Witness for `C6_deleteData`, realizing the spec's scenario:
`deleteData(3, 100)` on the 10-item buffer `tenItems` returns the 7 items
`[13..19]` and leaves a buffer of length 3. -/
theorem C6_deleteData_witness :
    (deleteData intTruthy tenItems 3 100).2 =
      (tenItems.sourceList.drop (jsSpliceStart tenItems.sourceList.length 3)).take 100 ∧
    (deleteData intTruthy tenItems 3 100).2 = [13, 14, 15, 16, 17, 18, 19] ∧
    (deleteData intTruthy tenItems 3 100).2.length = 7 ∧
    ((deleteData intTruthy tenItems 3 100).1).sourceList.length = 3 :=
  ⟨(C6_deleteData intTruthy tenItems 3 100).2.1, by decide, by decide, by decide⟩

/-! ### C7 -/

/-- C7: `insertData(items, index)` splices the items in at `index` when
`0 ≤ index ≤ length`, and appends them at the end when the index is
omitted or out of range; the relative order of the inserted and of the
pre-existing items is preserved. -/
theorem C7_insertData (truthy : T → Bool) (s : ListView T) (items : List T)
    (oi : Option Int) :
    (insertData truthy s items oi).sourceList =
      (match oi with
       | some i =>
           if 0 ≤ i ∧ i ≤ (s.sourceList.length : Int) then
             s.sourceList.take i.toNat ++ items ++ s.sourceList.drop i.toNat
           else s.sourceList ++ items
       | none => s.sourceList ++ items) := by
  cases oi with
  | none =>
      show (insertBufferStep s items none).sourceList = s.sourceList ++ items
      simp [insertBufferStep]
  | some i =>
      have hred : (insertBufferStep s items (some i)).sourceList =
          s.sourceList.take ((if i < 0 ∨ (s.sourceList.length : Int) < i then
            (s.sourceList.length : Int) else i)).toNat ++ items ++
          s.sourceList.drop ((if i < 0 ∨ (s.sourceList.length : Int) < i then
            (s.sourceList.length : Int) else i)).toNat := rfl
      show (insertBufferStep s items (some i)).sourceList =
        (if 0 ≤ i ∧ i ≤ (s.sourceList.length : Int) then
          s.sourceList.take i.toNat ++ items ++ s.sourceList.drop i.toNat
        else s.sourceList ++ items)
      rw [hred]
      by_cases h : 0 ≤ i ∧ i ≤ (s.sourceList.length : Int)
      · have hcond : ¬(i < 0 ∨ (s.sourceList.length : Int) < i) := by omega
        rw [if_neg hcond, if_pos h]
      · have hcond : i < 0 ∨ (s.sourceList.length : Int) < i := by omega
        rw [if_pos hcond, if_neg h]
        simp

/-! ### C8 -/

/-- C8: inserting `[x]` at index 0 yields a buffer of length `N + 1`
headed by `x`, and `deleteData(0, 1)` immediately afterwards returns `[x]`
and restores the buffer to the exact pre-insert sequence. -/
theorem C8_insert_delete_roundtrip (truthy : T → Bool) (s : ListView T) (x : T) :
    (insertData truthy s [x] (some 0)).sourceList.length = s.sourceList.length + 1 ∧
    (insertData truthy s [x] (some 0)).sourceList.head? = some x ∧
    (deleteData truthy (insertData truthy s [x] (some 0)) 0 1).2 = [x] ∧
    ((deleteData truthy (insertData truthy s [x] (some 0)) 0 1).1).sourceList =
      s.sourceList := by
  have hc : ¬((0 : Int) < 0 ∨ (s.sourceList.length : Int) < 0) := by omega
  have hneg : ¬((s.sourceList.length : Int) < 0) := by omega
  have h0 : (insertData truthy s [x] (some 0)).sourceList = x :: s.sourceList := by
    show (insertBufferStep s [x] (some 0)).sourceList = _
    simp [insertBufferStep, hc, hneg]
  have hstart0 :
      jsSpliceStart (insertData truthy s [x] (some 0)).sourceList.length 0 = 0 := by
    simp only [jsSpliceStart]
    omega
  refine ⟨?_, ?_, ?_, ?_⟩
  · rw [h0]
    rfl
  · rw [h0]
    rfl
  · show ((insertData truthy s [x] (some 0)).sourceList.drop
        (jsSpliceStart (insertData truthy s [x] (some 0)).sourceList.length 0)).take 1
        = [x]
    rw [hstart0, h0]
    rfl
  · show (insertData truthy s [x] (some 0)).sourceList.take
        (jsSpliceStart (insertData truthy s [x] (some 0)).sourceList.length 0) ++
        (insertData truthy s [x] (some 0)).sourceList.drop
          (jsSpliceStart (insertData truthy s [x] (some 0)).sourceList.length 0 + 1)
        = s.sourceList
    rw [hstart0, h0]
    rfl

/-! ### C9 -/

/-- C9: `updateData(items)` replaces the whole buffer with `items`,
remeasures (the runway sizes) exactly when `fixedSize` is off, resets the
scroll offset to the top exactly when the new length fits into
`visibleCount`, creates exactly `virtualItemCount` fresh slots via the
factory (on top of the retained baseline of at most `RUNWAY_COUNT` old
slots), and finishes with `_stretchList` followed by a full `_renderList`
pass. -/
theorem C9_updateData (truthy : T → Bool) (s : ListView T) (l : List T) :
    (updateData truthy s l).sourceList = l ∧
    (updateData truthy s l).cachedRunwayHeight =
      (if s.fixedSize then s.cachedRunwayHeight else s.runwayHeight) ∧
    (updateData truthy s l).cachedRunwayWidth =
      (if s.fixedSize then s.cachedRunwayWidth else s.runwayWidth) ∧
    (updateData truthy s l).scrollTop =
      (if l.length ≤ virtualItemCount s then 0 else s.scrollTop) ∧
    (updateData truthy s l).slots.length =
      min RUNWAY_COUNT s.slots.length + virtualItemCount s ∧
    updateData truthy s l = renderList truthy (stretchList (updateDataPreRender s l)) := by
  obtain ⟨h1, -, -, -, h5, h6, h7, h8⟩ := updateDataPreRender_fields s l
  refine ⟨h1, h5, h6, h7, ?_, rfl⟩
  have hlen : (updateData truthy s l).slots.length =
      (updateDataPreRender s l).slots.length :=
    renderList_slots_length truthy _
  rw [hlen]
  exact h8

end ListViewModel
